import Mathlib

/-!
Shallow embedding of the frontend WebRTC call service (`WebRTCService` in the
repository source): the call-session state machine, the signaling-message
dispatcher, the session-creation handshake with its timeout, the remote-answer
handler, and teardown.

Modelling conventions:
- JavaScript values carried by signaling messages are embedded as `JsValue`
  (JSON data); a missing property (`undefined`) is `Option.none`.
- Side effects (socket sends, console logs, user-callback invocations, media
  track stops) are recorded in an explicit `Effect` list returned next to the
  updated state, in the order the source performs them.
- The one-shot promise returned by `createSession` and its 10-second
  `setTimeout` are made explicit: a `Runtime` carries the list of promise
  states (indexed by creation order) and the armed timers; `fireTimer` is the
  timeout-clock event, and delivering a websocket message is the
  control-channel event.  The source's mutation of the `onSessionCreated`
  callback slot with wrapper closures is embedded as the inductive `SCB`
  (the slot holds either the user handler, a wrapper installed by a
  `createSession` call, or the forwarder a wrapper installs on first fire).
- The browser's `RTCPeerConnection.setRemoteDescription` is the platform
  capability the source delegates to; it is modelled by the W3C signaling
  state machine restricted to what this client exercises: applying a
  description of type "answer" succeeds exactly in the `haveLocalOffer`
  state (moving to `stable`), and throws an InvalidStateError otherwise.
- `JSON.parse` is modelled by an executable recursive-descent parser
  (`jsonParse`) over the JSON fragment the protocol uses: null, booleans,
  integer numerals, strings without escape sequences, arrays and objects.
-/

/-- JSON-style JavaScript values carried on the control channel. -/
inductive JsValue where
  | null
  | bool (b : Bool)
  | num (n : Int)
  | str (s : String)
  | arr (elems : List JsValue)
  | obj (fields : List (String × JsValue))

/-- JavaScript truthiness of a value, used by the source's `if (x)` guards. -/
def truthy : JsValue → Bool
  | .null => false
  | .bool b => b
  | .num n => !(n == 0)
  | .str s => !(s == "")
  | .arr _ => true
  | .obj _ => true

/-- Truthiness of a possibly-undefined value (`none` = `undefined`/`null`). -/
def truthyO : Option JsValue → Bool
  | none => false
  | some v => truthy v

/-- Property read `v[k]`: `none` models `undefined` (absent property or
non-object receiver). -/
def getField : JsValue → String → Option JsValue
  | .obj fields, k => (fields.find? (fun p => p.1 == k)).map (fun p => p.2)
  | _, _ => none

/-- Strict equality `x === "s"` of a possibly-undefined value with a string
literal, as used by the `switch` in `handleWebSocketMessage`. -/
def strEq : Option JsValue → String → Bool
  | some (.str t), s => t == s
  | _, _ => false

/-- JavaScript exceptions the embedded code can raise. -/
inductive JsError where
  | error (msg : String)
  | typeError (msg : String)
  | parseErr (msg : String)
  | invalidState (msg : String)
deriving DecidableEq

/-- The rejection `createSession` produces when the channel is not open
(`new Error('WebSocket chưa kết nối')`); the spec's error taxonomy names this
code path NotConnectedError. -/
def NotConnectedError : JsError := .error ("WebSocket chưa kết nối")

/-- The rejection the 10-second `setTimeout` in `createSession` produces
(`new Error('Tạo phiên hết thời gian chờ')`); the spec's error taxonomy names
this code path SessionTimeoutError. -/
def SessionTimeoutError : JsError := .error ("Tạo phiên hết thời gian chờ")

/-- An SDP session description (`{sdp, type}`). -/
structure RTCSessionDescription where
  sdp : String
  typ : String
deriving DecidableEq

/-- W3C peer-connection signaling states reachable by this client (it only
ever applies a local offer and then a remote answer). -/
inductive SignalingState where
  | stable
  | haveLocalOffer
deriving DecidableEq

/-- The slice of the browser `RTCPeerConnection` state the source observes. -/
structure RTCPeerConnection where
  signalingState : SignalingState
  localDescription : Option RTCSessionDescription
  remoteDescription : Option RTCSessionDescription
deriving DecidableEq

/-- A media stream as a list of track identifiers. -/
structure MediaStream where
  tracks : List Nat
deriving DecidableEq

/-- Contents of the mutable `callbacks.onSessionCreated` slot.  The source's
`createSession` overwrites this slot with a wrapper closure (capturing the
promise it must resolve and the slot's previous value), and that wrapper, when
first fired, overwrites the slot again with a forwarder to whatever the slot
held at that moment; the timeout callback restores the saved previous value. -/
inductive SCB where
  | ofUser (h : Option Nat)
  | wrapper (pid : Nat) (orig : SCB)
  | forwarder (orig : SCB)
deriving DecidableEq

/-- Truthiness of the callback slot (a `null` user handler is falsy; every
closure is truthy). -/
def SCB.truthy : SCB → Bool
  | .ofUser none => false
  | _ => true

/-- The fixed callback table built in the constructor.  Registered user
handlers are identified by numbers; `none` is the initial `null`. -/
structure Callbacks where
  onConnectionStateChange : Option Nat
  onTranscript : Option Nat
  onTranslation : Option Nat
  onError : Option Nat
  onSessionCreated : SCB
  onCallEstablished : Option Nat
  onCallEnded : Option Nat
deriving DecidableEq

/-- Client-to-server signaling messages (the JSON bodies the source passes to
`websocket.send`). -/
inductive ClientMsg where
  | create_session
  | process_offer (session_id : JsValue) (offer : RTCSessionDescription)
  | set_languages (session_id : JsValue) (source_lang target_lang : String)
  | close_session (session_id : JsValue)

/-- Observable side effects, recorded in source order: socket sends, console
output, peer-connection close, media-track stops, and user-callback
invocations. -/
inductive Effect where
  | send (m : ClientMsg)
  | log (s : String)
  | logError (s : String)
  | closePC
  | stopTrack (t : Nat)
  | emitConnectionState (b : Bool)
  | emitTranscript (v : Option JsValue)
  | emitTranslation (v : Option JsValue)
  | emitError (v : Option JsValue)
  | emitSessionCreated (v : Option JsValue)
  | emitCallEstablished
  | emitCallEnded

/-- Instance fields of `WebRTCService` (the constructor's assignments). -/
structure WebRTCService where
  isConnected : Bool
  sessionId : Option JsValue
  peerConnection : Option RTCPeerConnection
  localStream : Option MediaStream
  remoteStream : Option MediaStream
  callbacks : Callbacks

/-- State of one JavaScript promise returned by `createSession`. -/
inductive PState where
  | pending
  | resolved (v : Option JsValue)
  | rejected (e : JsError)

/-- One armed `setTimeout` from `createSession`: which promise it rejects and
which previous slot value it restores. -/
structure TimerState where
  pid : Nat
  savedOrig : SCB
  fired : Bool
deriving DecidableEq

/-- The service together with the promises created so far and armed timers. -/
structure Runtime where
  svc : WebRTCService
  promises : List PState
  timers : List TimerState

/-- Settle the promise at an index with `f`, leaving others untouched. -/
def settleAt (f : PState → PState) : List PState → Nat → List PState
  | [], _ => []
  | p :: rest, 0 => f p :: rest
  | p :: rest, Nat.succ j => p :: settleAt f rest j

/-- Promise `resolve`: only a pending promise settles (JS semantics). -/
def resolveP (pid : Nat) (v : Option JsValue) (ps : List PState) : List PState :=
  settleAt (fun p => match p with | .pending => .resolved v | q => q) ps pid

/-- Promise `reject`: only a pending promise settles (JS semantics). -/
def rejectP (pid : Nat) (e : JsError) (ps : List PState) : List PState :=
  settleAt (fun p => match p with | .pending => .rejected e | q => q) ps pid

/-- Mark the timer at an index as fired. -/
def markFired : List TimerState → Nat → List TimerState
  | [], _ => []
  | t :: rest, 0 => ⟨t.pid, t.savedOrig, true⟩ :: rest
  | t :: rest, Nat.succ j => t :: markFired rest j

/-- Overwrite the `callbacks.onSessionCreated` slot. -/
def setSlot (c : SCB) (rt : Runtime) : Runtime :=
  { rt with svc := { rt.svc with callbacks := { rt.svc.callbacks with onSessionCreated := c } } }

/-- Execute an `onSessionCreated` slot closure on a delivered session id.
A `wrapper` runs the source's `sessionCreatedHandler`: it resolves its
promise, re-reads the (still unchanged) slot as `originalCallback`, installs a
forwarder to it, and then invokes the `originalCallback` captured when the
wrapper was installed, if truthy.  A `forwarder` invokes its captured value if
truthy.  A user handler records an `emitSessionCreated` effect. -/
def invokeSCB : SCB → Option JsValue → Runtime → Runtime × List Effect
  | .ofUser none, _, rt => (rt, [])
  | .ofUser (some _), sid, rt => (rt, [.emitSessionCreated sid])
  | .wrapper pid orig, sid, rt =>
    let rt1 := { rt with promises := resolveP pid sid rt.promises }
    let oc := rt1.svc.callbacks.onSessionCreated
    let rt2 := setSlot (.forwarder oc) rt1
    if orig.truthy then invokeSCB orig sid rt2 else (rt2, [])
  | .forwarder f, sid, rt =>
    if f.truthy then invokeSCB f sid rt else (rt, [])

/-- `createSession` (the promise executor runs synchronously): reject at once
when the socket is not connected; otherwise send `create_session`, save the
current `onSessionCreated` slot, install the wrapper, and arm the 10-second
timeout.  The new promise's index is the number of promises created before. -/
def createSession (rt : Runtime) : Runtime × List Effect :=
  if !rt.svc.isConnected then
    ({ rt with promises := rt.promises ++ [.rejected NotConnectedError] }, [])
  else
    let orig := rt.svc.callbacks.onSessionCreated
    let pid := rt.promises.length
    ({ svc := { rt.svc with callbacks :=
         { rt.svc.callbacks with onSessionCreated := .wrapper pid orig } },
       promises := rt.promises ++ [.pending],
       timers := rt.timers ++ [⟨pid, orig, false⟩] },
     [.send .create_session])

/-- The timeout-clock event: the `setTimeout` callback rejects its promise
with the timeout error and unconditionally restores the saved slot value.
A timer fires at most once. -/
def fireTimer (i : Nat) (rt : Runtime) : Runtime :=
  match rt.timers[i]? with
  | none => rt
  | some t =>
    if t.fired then rt
    else
      setSlot t.savedOrig
        { rt with promises := rejectP t.pid SessionTimeoutError rt.promises,
                  timers := markFired rt.timers i }

/-- The callback invocation the source performs on `onError` inside
`handleRemoteAnswer`'s catch block (nothing when no handler is registered). -/
def errCB (svc : WebRTCService) : List Effect :=
  match svc.callbacks.onError with
  | some _ => [.emitError (some (.str ("Lỗi khi thiết lập kết nối")))]
  | none => []

/-- Association lookup in a parsed JSON object's field list. -/
def fieldOf (fields : List (String × JsValue)) (k : String) : Option JsValue :=
  (fields.find? (fun p => p.1 == k)).map (fun p => p.2)

/-- String value of a possibly-undefined field, defaulting to the empty
string (the `RTCSessionDescriptionInit.sdp` default). -/
def sdpOf (v : Option JsValue) : String :=
  match v with
  | some (.str s) => s
  | _ => ""

/-- `new RTCSessionDescription(answer)`: requires a dictionary with a string
`type` member; `sdp` defaults to the empty string.  Anything else throws a
TypeError (caught by the source's surrounding try/catch). -/
def mkRTCSessionDescription : Option JsValue → Except JsError RTCSessionDescription
  | some (.obj fields) =>
    match fieldOf fields ("type") with
    | some (.str t) => .ok (RTCSessionDescription.mk (sdpOf (fieldOf fields ("sdp"))) t)
    | _ => .error (.typeError ("Failed to construct RTCSessionDescription"))
  | _ => .error (.typeError ("Failed to construct RTCSessionDescription"))

/-- `handleRemoteAnswer(answer)`: logged no-op when no peer connection exists;
otherwise construct the description and apply it via the platform
`setRemoteDescription` (succeeds exactly for an "answer" in `haveLocalOffer`,
moving to `stable`); any thrown error is caught, logged, and surfaced on the
`onError` callback. -/
def handleRemoteAnswer (answer : Option JsValue) (svc : WebRTCService) :
    WebRTCService × List Effect :=
  match svc.peerConnection with
  | none => (svc, [.logError ("Peer connection not established")])
  | some pc =>
    match mkRTCSessionDescription answer with
    | .error _ => (svc, .logError ("Error handling remote answer:") :: errCB svc)
    | .ok d =>
      match pc.signalingState with
      | .haveLocalOffer =>
        if d.typ == "answer" then
          ({ svc with peerConnection := some (RTCPeerConnection.mk .stable pc.localDescription (some d)) },
           [.log ("Remote description set successfully")])
        else (svc, .logError ("Error handling remote answer:") :: errCB svc)
      | .stable => (svc, .logError ("Error handling remote answer:") :: errCB svc)

/-- `setLanguages(sourceLang, targetLang)`: when there is no truthy session id
or the socket is not connected, log an error and return (surfacing nothing to
the caller); otherwise send one `set_languages` message with the pair. -/
def setLanguages (sourceLang targetLang : String) (svc : WebRTCService) :
    WebRTCService × List Effect :=
  match svc.sessionId, svc.isConnected with
  | some v, true =>
    if truthy v then (svc, [.send (.set_languages v sourceLang targetLang)])
    else (svc, [.logError ("Cannot set languages: No active session or connection")])
  | _, _ => (svc, [.logError ("Cannot set languages: No active session or connection")])

/-- `endCall()`: close the peer connection if present, stop every local track
and drop the stream if present, send `close_session` when a truthy session id
exists and the socket is connected, clear `remoteStream` and `sessionId`, and
finally invoke `onCallEnded` unconditionally (whenever a handler is
registered). -/
def endCall (svc : WebRTCService) : WebRTCService × List Effect :=
  let s1 := match svc.peerConnection with
    | some _ => { svc with peerConnection := none }
    | none => svc
  let e1 : List Effect := match svc.peerConnection with
    | some _ => [.closePC]
    | none => []
  let s2 := match s1.localStream with
    | some _ => { s1 with localStream := none }
    | none => s1
  let e2 : List Effect := match s1.localStream with
    | some ms => ms.tracks.map Effect.stopTrack
    | none => []
  let e3 : List Effect := match s2.sessionId, s2.isConnected with
    | some v, true => if truthy v then [.send (.close_session v)] else []
    | _, _ => []
  let s3 := { s2 with remoteStream := none, sessionId := none }
  let e4 : List Effect := match s3.callbacks.onCallEnded with
    | some _ => [.emitCallEnded]
    | none => []
  (s3, e1 ++ e2 ++ e3 ++ e4)

/-- The own property names of the constructor's `callbacks` object, i.e. the
event names `on(eventName, cb)` accepts. -/
def callbackNames : List String :=
  ["onConnectionStateChange", "onTranscript", "onTranslation", "onError",
   "onSessionCreated", "onCallEstablished", "onCallEnded"]

/-- Dynamic write `callbacks[eventName] = cb` for a known event name. -/
def setCallback (eventName : String) (cb : Nat) (c : Callbacks) : Callbacks :=
  if eventName == "onConnectionStateChange" then { c with onConnectionStateChange := some cb }
  else if eventName == "onTranscript" then { c with onTranscript := some cb }
  else if eventName == "onTranslation" then { c with onTranslation := some cb }
  else if eventName == "onError" then { c with onError := some cb }
  else if eventName == "onSessionCreated" then { c with onSessionCreated := .ofUser (some cb) }
  else if eventName == "onCallEstablished" then { c with onCallEstablished := some cb }
  else if eventName == "onCallEnded" then { c with onCallEnded := some cb }
  else c

/-- `on(eventName, callback)` (named `on'` here because `on` is taken by
library notation): overwrite the named slot when the callbacks object has that
own property, otherwise log the unknown event name. -/
def on' (eventName : String) (cb : Nat) (svc : WebRTCService) :
    WebRTCService × List Effect :=
  if callbackNames.contains eventName then
    ({ svc with callbacks := setCallback eventName cb svc.callbacks }, [])
  else
    (svc, [.logError ("Unknown event: " ++ eventName)])

/-- `handleWebSocketMessage(data)`: destructuring `{ action } = data` throws a
TypeError on `null`; otherwise dispatch on the `action` string.  The
`session_created` case unconditionally stores `data.session_id` and then
invokes the `onSessionCreated` slot if truthy; unknown actions are logged. -/
def handleWebSocketMessage (data : JsValue) (rt : Runtime) :
    Except JsError (Runtime × List Effect) :=
  match data with
  | .null => .error (.typeError ("Cannot destructure property of null"))
  | _ =>
    let action := getField data ("action")
    if strEq action ("session_created") then
      let sid := getField data ("session_id")
      let rt1 := { rt with svc := { rt.svc with sessionId := sid } }
      let slot := rt1.svc.callbacks.onSessionCreated
      if slot.truthy then .ok (invokeSCB slot sid rt1) else .ok (rt1, [])
    else if strEq action ("answer") then
      let p := handleRemoteAnswer (getField data ("answer")) rt.svc
      .ok ({ rt with svc := p.1 }, p.2)
    else if strEq action ("transcript") then
      match rt.svc.callbacks.onTranscript with
      | some _ => .ok (rt, [.emitTranscript (getField data ("text"))])
      | none => .ok (rt, [])
    else if strEq action ("translation") then
      match rt.svc.callbacks.onTranslation with
      | some _ => .ok (rt, [.emitTranslation (getField data ("text"))])
      | none => .ok (rt, [])
    else if strEq action ("session_state") then
      if strEq (getField data ("state")) ("closed") then
        match rt.svc.callbacks.onCallEnded with
        | some _ => .ok (rt, [.emitCallEnded])
        | none => .ok (rt, [])
      else .ok (rt, [])
    else if strEq action ("error") then
      match rt.svc.callbacks.onError with
      | some _ => .ok (rt, [.emitError (getField data ("message"))])
      | none => .ok (rt, [])
    else
      .ok (rt, [.log ("Unhandled websocket message:")])

/-- Whitespace skipping for the JSON parser. -/
def skipWs : List Char → List Char
  | c :: cs => if c = ' ' ∨ c = '\n' ∨ c = '\t' ∨ c = '\r' then skipWs cs else c :: cs
  | [] => []

/-- Read the body of a JSON string up to the closing quote (strings without
escape sequences). -/
def takeStr : List Char → Option (List Char × List Char)
  | [] => none
  | c :: cs =>
    if c = '"' then some ([], cs)
    else match takeStr cs with
      | some (acc, rest) => some (c :: acc, rest)
      | none => none

/-- Read a maximal run of decimal digits. -/
def takeDigits : List Char → (List Char × List Char)
  | [] => ([], [])
  | c :: cs =>
    if c.isDigit then
      match takeDigits cs with
      | (ds, rest) => (c :: ds, rest)
    else ([], c :: cs)

/-- Numeric value of a digit run. -/
def digitsToNat (ds : List Char) : Nat :=
  ds.foldl (fun a c => a * 10 + (c.toNat - 48)) 0

/-- The object-open and object-close braces, by code point. -/
def braceOpen : Char := Char.ofNat 123

/-- The closing brace character. -/
def braceClose : Char := Char.ofNat 125

mutual

/-- Fuel-bounded recursive-descent parser for one JSON value. -/
def parseVal (fuel : Nat) (input : List Char) : Option (JsValue × List Char) :=
  match fuel with
  | 0 => none
  | Nat.succ f =>
    match skipWs input with
    | [] => none
    | c :: rest =>
      if c = 'n' then
        match rest with
        | 'u' :: 'l' :: 'l' :: r => some (.null, r)
        | _ => none
      else if c = 't' then
        match rest with
        | 'r' :: 'u' :: 'e' :: r => some (.bool true, r)
        | _ => none
      else if c = 'f' then
        match rest with
        | 'a' :: 'l' :: 's' :: 'e' :: r => some (.bool false, r)
        | _ => none
      else if c = '"' then
        match takeStr rest with
        | some (acc, r) => some (.str (String.mk acc), r)
        | none => none
      else if c = '[' then
        match skipWs rest with
        | ']' :: r2 => some (.arr [], r2)
        | r1 => match parseElems f r1 with
          | some (vs, r2) => some (.arr vs, r2)
          | none => none
      else if c = braceOpen then
        match skipWs rest with
        | d :: r2 => if d = braceClose then some (.obj [], r2) else
            match parseMembers f (d :: r2) with
            | some (ms, r3) => some (.obj ms, r3)
            | none => none
        | [] => none
      else if c = '-' then
        match takeDigits rest with
        | ([], _) => none
        | (ds, r) => some (.num (-(Int.ofNat (digitsToNat ds))), r)
      else if c.isDigit then
        match takeDigits (c :: rest) with
        | (ds, r) => some (.num (Int.ofNat (digitsToNat ds)), r)
      else none

/-- Comma-separated JSON values up to the closing bracket. -/
def parseElems (fuel : Nat) (input : List Char) : Option (List JsValue × List Char) :=
  match fuel with
  | 0 => none
  | Nat.succ f =>
    match parseVal f input with
    | none => none
    | some (v, r1) =>
      match skipWs r1 with
      | ',' :: r2 =>
        (match parseElems f r2 with
         | some (vs, r3) => some (v :: vs, r3)
         | none => none)
      | ']' :: r2 => some ([v], r2)
      | _ => none

/-- Comma-separated `"key": value` members up to the closing brace. -/
def parseMembers (fuel : Nat) (input : List Char) : Option (List (String × JsValue) × List Char) :=
  match fuel with
  | 0 => none
  | Nat.succ f =>
    match skipWs input with
    | c :: r0 =>
      if c = '"' then
        match takeStr r0 with
        | none => none
        | some (key, r1) =>
          match skipWs r1 with
          | ':' :: r2 =>
            (match parseVal f r2 with
             | none => none
             | some (v, r3) =>
               match skipWs r3 with
               | ',' :: r4 =>
                 (match parseMembers f r4 with
                  | some (ms, r5) => some ((String.mk key, v) :: ms, r5)
                  | none => none)
               | d :: r4 =>
                 if d = braceClose then some ([(String.mk key, v)], r4) else none
               | [] => none)
          | _ => none
      else none
    | [] => none

end

/-- `JSON.parse(text)` model: parse one value and require only trailing
whitespace after it. -/
def jsonParse (s : String) : Option JsValue :=
  match parseVal (s.length + 1) s.data with
  | some (v, rest) =>
    match skipWs rest with
    | [] => some v
    | _ => none
  | none => none

/-- The `websocket.onmessage` handler installed by `connect`: parse the frame
with `JSON.parse` (an unparseable frame makes the handler throw, there is no
surrounding try/catch) and dispatch it to `handleWebSocketMessage`. -/
def onmessage (frame : String) (rt : Runtime) : Except JsError (Runtime × List Effect) :=
  match jsonParse frame with
  | none => .error (.parseErr ("Unexpected token in JSON"))
  | some data => handleWebSocketMessage data rt

/-- Whether an `Except` outcome is a normal return (no thrown exception). -/
def exceptOk : Except JsError (Runtime × List Effect) → Bool
  | .ok _ => true
  | .error _ => false

/-- The messages sent on the websocket within an effect list, in order. -/
def sentMessages (effs : List Effect) : List ClientMsg :=
  effs.filterMap (fun e => match e with | .send m => some m | _ => none)

/-- The media tracks stopped within an effect list, in order. -/
def stoppedTracks (effs : List Effect) : List Nat :=
  effs.filterMap (fun e => match e with | .stopTrack t => some t | _ => none)

/-- How many times the call-ended notification is emitted in an effect list. -/
def callEndedCount (effs : List Effect) : Nat :=
  (effs.filter (fun e => match e with | .emitCallEnded => true | _ => false)).length

/-- Invariant of the platform peer connection as this client drives it: a
remote description is only ever present in the `stable` signaling state. -/
def wfRemote (svc : WebRTCService) : Bool :=
  match svc.peerConnection with
  | none => true
  | some pc =>
    match pc.remoteDescription with
    | none => true
    | some _ => pc.signalingState == .stable

/-- Whether applying `answer` on peer connection `pc` throws (either the
description constructor throws, or `setRemoteDescription` is called outside
`haveLocalOffer` or with a non-answer type). -/
def applyFails (pc : RTCPeerConnection) (answer : Option JsValue) : Bool :=
  match mkRTCSessionDescription answer with
  | .error _ => true
  | .ok d => !(pc.signalingState == .haveLocalOffer && d.typ == "answer")

/-- A callback table with a user handler registered in every slot. -/
def allRegistered : Callbacks :=
  Callbacks.mk (some 1) (some 2) (some 3) (some 4) (.ofUser (some 5)) (some 6) (some 7)

/-- The freshly constructed service (`new WebRTCService()`). -/
def initService : WebRTCService :=
  WebRTCService.mk false none none none none
    (Callbacks.mk none none none none (.ofUser none) none none)

/-- A service in mid-call: connected, session `"s1"` active, negotiation
complete (remote answer applied), one local track, remote stream present, all
callbacks registered. -/
def activeService : WebRTCService :=
  WebRTCService.mk true (some (.str ("s1")))
    (some (RTCPeerConnection.mk .stable
      (some (RTCSessionDescription.mk ("osdp") ("offer")))
      (some (RTCSessionDescription.mk ("asdp") ("answer")))))
    (some (MediaStream.mk [0]))
    (some (MediaStream.mk [5]))
    allRegistered

/-- A connected service right after `connect` resolves, with a user handler on
the session-created slot, before any session exists. -/
def rtConn : Runtime :=
  Runtime.mk
    (WebRTCService.mk true none none none none
      (Callbacks.mk none none none none (.ofUser (some 5)) none none))
    [] []

/-- A connected service with a session whose negotiation awaits the remote
answer: the local offer is applied, no remote description yet. -/
def hloService : WebRTCService :=
  WebRTCService.mk true (some (.str ("s1")))
    (some (RTCPeerConnection.mk .haveLocalOffer
      (some (RTCSessionDescription.mk ("osdp") ("offer"))) none))
    (some (MediaStream.mk [0]))
    none
    allRegistered

/-- A well-formed `answer` signaling payload (`data.answer`). -/
def answerMsgVal : Option JsValue :=
  some (.obj [(("type"), .str ("answer")), (("sdp"), .str ("asdp"))])

/-- The server frame `{action: "session_created", session_id: "s1"}` already
parsed at the channel boundary. -/
def sessionCreatedMsg : JsValue :=
  .obj [(("action"), .str ("session_created")), (("session_id"), .str ("s1"))]

/-- Normal result of a dispatcher run, `none` when it threw. -/
def runOk (r : Except JsError (Runtime × List Effect)) : Option (Runtime × List Effect) :=
  match r with
  | .ok p => some p
  | .error _ => none

/-- A connected service with every callback registered but no session yet. -/
def connectedNoSession : WebRTCService :=
  WebRTCService.mk true none none none none allRegistered

/-- Filtering sends distributes over effect concatenation. -/
theorem sentMessages_append (a b : List Effect) :
    sentMessages (a ++ b) = sentMessages a ++ sentMessages b := by
  simp [sentMessages]

/-- Filtering stops distributes over effect concatenation. -/
theorem stoppedTracks_append (a b : List Effect) :
    stoppedTracks (a ++ b) = stoppedTracks a ++ stoppedTracks b := by
  simp [stoppedTracks]

/-- Counting call-ended emissions distributes over effect concatenation. -/
theorem callEndedCount_append (a b : List Effect) :
    callEndedCount (a ++ b) = callEndedCount a + callEndedCount b := by
  simp [callEndedCount]

/-- A run of track stops contains exactly those stops. -/
theorem stoppedTracks_mapStop (ts : List Nat) :
    stoppedTracks (ts.map Effect.stopTrack) = ts := by
  induction ts with
  | nil => rfl
  | cons a t ih =>
    rw [List.map_cons,
      show stoppedTracks (Effect.stopTrack a :: List.map Effect.stopTrack t)
          = a :: stoppedTracks (List.map Effect.stopTrack t) from rfl, ih]

/-- A run of track stops sends nothing. -/
theorem sentMessages_mapStop (ts : List Nat) :
    sentMessages (ts.map Effect.stopTrack) = [] := by
  induction ts with
  | nil => rfl
  | cons a t ih =>
    rw [List.map_cons,
      show sentMessages (Effect.stopTrack a :: List.map Effect.stopTrack t)
          = sentMessages (List.map Effect.stopTrack t) from rfl, ih]

/-- A run of track stops emits no call-ended notification. -/
theorem callEndedCount_mapStop (ts : List Nat) :
    callEndedCount (ts.map Effect.stopTrack) = 0 := by
  induction ts with
  | nil => rfl
  | cons a t ih =>
    rw [List.map_cons,
      show callEndedCount (Effect.stopTrack a :: List.map Effect.stopTrack t)
          = callEndedCount (List.map Effect.stopTrack t) from rfl, ih]

/-- A conditional lone send stops no tracks. -/
theorem stoppedTracks_sendIf (b : Bool) (m : ClientMsg) :
    stoppedTracks (if b then [Effect.send m] else []) = [] := by
  cases b <;> simp [stoppedTracks]

/-- A conditional lone send emits no call-ended notification. -/
theorem callEndedCount_sendIf (b : Bool) (m : ClientMsg) :
    callEndedCount (if b then [Effect.send m] else []) = 0 := by
  cases b <;> simp [callEndedCount]

/-- A conditional lone send transmits exactly that message when enabled. -/
theorem sentMessages_sendIf (b : Bool) (m : ClientMsg) :
    sentMessages (if b then [Effect.send m] else []) = if b then [m] else [] := by
  cases b <;> simp [sentMessages]

/-- No effects stop no tracks. -/
theorem stoppedTracks_nil : stoppedTracks [] = [] := rfl

/-- Closing the peer connection stops no tracks. -/
theorem stoppedTracks_closePC : stoppedTracks [Effect.closePC] = [] := rfl

/-- The call-ended emission stops no tracks. -/
theorem stoppedTracks_emitCE : stoppedTracks [Effect.emitCallEnded] = [] := rfl

/-- No effects emit no call-ended notification. -/
theorem callEndedCount_nil : callEndedCount [] = 0 := rfl

/-- Closing the peer connection emits no call-ended notification. -/
theorem callEndedCount_closePC : callEndedCount [Effect.closePC] = 0 := rfl

/-- One call-ended emission counts once. -/
theorem callEndedCount_emitCE : callEndedCount [Effect.emitCallEnded] = 1 := rfl

/-- No effects send no messages. -/
theorem sentMessages_nil : sentMessages [] = [] := rfl

/-- Closing the peer connection sends no message. -/
theorem sentMessages_closePC : sentMessages [Effect.closePC] = [] := rfl

/-- The call-ended emission sends no message. -/
theorem sentMessages_emitCE : sentMessages [Effect.emitCallEnded] = [] := rfl

/-- Once the peer connection is in `stable`, `handleRemoteAnswer` never
changes the service state (the platform call throws and the catch block only
logs and notifies). -/
theorem handleRemoteAnswer_stable (svc : WebRTCService) (a : Option JsValue)
    (pc : RTCPeerConnection) (hpc : svc.peerConnection = some pc)
    (hs : pc.signalingState = .stable) :
    (handleRemoteAnswer a svc).1 = svc := by
  unfold handleRemoteAnswer
  rw [hpc]
  cases hd : mkRTCSessionDescription a with
  | error e => rfl
  | ok d => simp [hs]

/-- `handleRemoteAnswer` preserves the peer-connection invariant: a remote
description only ever lives in the `stable` state. -/
theorem handleRemoteAnswer_wf (svc : WebRTCService) (a : Option JsValue)
    (h : wfRemote svc = true) : wfRemote (handleRemoteAnswer a svc).1 = true := by
  obtain ⟨conn, sid, pc, ls, rs, cbs⟩ := svc
  cases pc with
  | none => exact h
  | some p =>
    cases hd : mkRTCSessionDescription a with
    | error e => simpa [handleRemoteAnswer, hd] using h
    | ok d =>
      cases hss : p.signalingState with
      | stable => simpa [handleRemoteAnswer, hd, hss] using h
      | haveLocalOffer =>
        cases ht : (d.typ == "answer") with
        | false => simpa [handleRemoteAnswer, hd, hss, ht] using h
        | true => simp [handleRemoteAnswer, hd, hss, ht, wfRemote]

/-- The dispatcher returns normally on every parsed frame other than `null`. -/
theorem handleWS_total (v : JsValue) (hv : v ≠ .null) (rt : Runtime) :
    exceptOk (handleWebSocketMessage v rt) = true := by
  cases v
  case null => exact absurd rfl hv
  all_goals
    simp only [handleWebSocketMessage]
    repeat' split
    all_goals rfl

/-- C1 counterexample: on a mid-call state, two successive `endCall`
invocations stop the single local track exactly once overall, but the
call-ended notification is emitted twice overall, not exactly once — the
source invokes `onCallEnded` unconditionally at the end of every `endCall`
run, so the claimed exactly-once emission across both invocations is false. -/
theorem C1_counterexample :
    stoppedTracks ((endCall activeService).2 ++ (endCall (endCall activeService).1).2) = [0]
    ∧ callEndedCount ((endCall activeService).2 ++ (endCall (endCall activeService).1).2) = 2
    ∧ ¬ callEndedCount ((endCall activeService).2 ++ (endCall (endCall activeService).1).2) = 1 := by
  refine ⟨rfl, rfl, by decide⟩

/-- C1 amended: for every service state with a registered `onCallEnded`
handler, calling `endCall` twice in succession stops each local media track
exactly once in total (the first call stops exactly the tracks of the local
stream, the second stops none), but emits the call-ended notification once
per invocation — twice in total — rather than exactly once. -/
theorem C1_amended (conn : Bool) (sid : Option JsValue) (pc : Option RTCPeerConnection)
    (ls rs : Option MediaStream) (c1 c2 c3 c4 : Option Nat) (scb : SCB) (c6 : Option Nat)
    (h : Nat) :
    stoppedTracks (endCall (WebRTCService.mk conn sid pc ls rs
        (Callbacks.mk c1 c2 c3 c4 scb c6 (some h)))).2
      = (match ls with | some ms => ms.tracks | none => [])
    ∧ stoppedTracks (endCall (endCall (WebRTCService.mk conn sid pc ls rs
        (Callbacks.mk c1 c2 c3 c4 scb c6 (some h)))).1).2 = []
    ∧ callEndedCount (endCall (WebRTCService.mk conn sid pc ls rs
        (Callbacks.mk c1 c2 c3 c4 scb c6 (some h)))).2 = 1
    ∧ callEndedCount (endCall (endCall (WebRTCService.mk conn sid pc ls rs
        (Callbacks.mk c1 c2 c3 c4 scb c6 (some h)))).1).2 = 1 := by
  cases pc <;> cases ls <;> cases sid <;> cases conn <;>
    simp only [endCall, stoppedTracks_append, callEndedCount_append, stoppedTracks_mapStop,
      callEndedCount_mapStop, stoppedTracks_sendIf, callEndedCount_sendIf, stoppedTracks_nil,
      stoppedTracks_closePC, stoppedTracks_emitCE, callEndedCount_nil, callEndedCount_closePC,
      callEndedCount_emitCE, List.append_nil, List.nil_append, Nat.add_zero, Nat.zero_add,
      and_self, and_true, true_and]

/-- C2 counterexample: after `createSession` on a fresh connected service and
the 10-second timeout firing (so the request is already rejected), the session
id is still unset; a late `session_created` message then sets the service's
session id to `"s1"` — the late response is not ignored and does alter the
service's state, contrary to the claim. -/
theorem C2_counterexample :
    (fireTimer 0 (createSession rtConn).1).svc.sessionId = none
    ∧ (runOk (handleWebSocketMessage sessionCreatedMsg
        (fireTimer 0 (createSession rtConn).1))).map (fun p => p.1.svc.sessionId)
      = some (some (.str ("s1"))) := ⟨rfl, rfl⟩

/-- C2 amended: for every connected service with a plain user handler in the
session-created slot, if the timeout fires before any response then the
request is rejected with the timeout error (SessionTimeoutError), and a late
`session_created` message does not resolve the stale waiter (the promise
stays rejected) — but it still sets the service's session id. -/
theorem C2_amended (u : Option Nat) (sid : Option JsValue) (pc : Option RTCPeerConnection)
    (ls rs : Option MediaStream) (c1 c2 c3 c4 c6 c7 : Option Nat) :
    (fireTimer 0 (createSession (Runtime.mk (WebRTCService.mk true sid pc ls rs
        (Callbacks.mk c1 c2 c3 c4 (.ofUser u) c6 c7)) [] [])).1).promises
      = [.rejected SessionTimeoutError]
    ∧ (runOk (handleWebSocketMessage sessionCreatedMsg
        (fireTimer 0 (createSession (Runtime.mk (WebRTCService.mk true sid pc ls rs
          (Callbacks.mk c1 c2 c3 c4 (.ofUser u) c6 c7)) [] [])).1))).map (fun p => p.1.promises)
      = some [.rejected SessionTimeoutError]
    ∧ (runOk (handleWebSocketMessage sessionCreatedMsg
        (fireTimer 0 (createSession (Runtime.mk (WebRTCService.mk true sid pc ls rs
          (Callbacks.mk c1 c2 c3 c4 (.ofUser u) c6 c7)) [] [])).1))).map (fun p => p.1.svc.sessionId)
      = some (some (.str ("s1"))) := by
  cases u <;> exact ⟨rfl, rfl, rfl⟩

/-- C3 counterexample: with one `createSession` already pending on a fresh
connected service, a second `createSession` call does not fail — both
promises are pending afterwards — and it sends another `create_session`
request, contrary to the claimed immediate SessionAlreadyPendingError. -/
theorem C3_counterexample :
    (createSession (createSession rtConn).1).1.promises = [PState.pending, PState.pending]
    ∧ (createSession (createSession rtConn).1).2 = [Effect.send ClientMsg.create_session] :=
  ⟨rfl, rfl⟩

/-- C3 amended: the source has no in-flight guard at all: whenever the socket
is connected — regardless of any pending request or active session — a
`createSession` call sends another `create_session` message, wraps the
session-created slot once more, appends a fresh pending promise and arms a
fresh timer; no SessionAlreadyPendingError exists in the code. -/
theorem C3_amended (sid : Option JsValue) (pc : Option RTCPeerConnection)
    (ls rs : Option MediaStream) (cbs : Callbacks) (ps : List PState)
    (ts : List TimerState) :
    createSession (Runtime.mk (WebRTCService.mk true sid pc ls rs cbs) ps ts)
      = (Runtime.mk
          (WebRTCService.mk true sid pc ls rs
            { cbs with onSessionCreated := .wrapper ps.length cbs.onSessionCreated })
          (ps ++ [.pending])
          (ts ++ [TimerState.mk ps.length cbs.onSessionCreated false]),
         [.send .create_session]) := rfl

/-- C4: the remote description is set at most once per session.  Starting
from any service satisfying the platform invariant (a remote description only
exists in the `stable` signaling state), if a run of `handleRemoteAnswer`
leaves the peer connection with a remote description present, then a second
invocation of the handler — with any payload — leaves the service state
unchanged: the already-set remote description is never replaced (the platform
`setRemoteDescription` throws in `stable` and the handler's catch block only
logs and notifies). -/
theorem C4_remote_answer_applied_once (svc : WebRTCService) (a1 a2 : Option JsValue)
    (hwf : wfRemote svc = true) (pc1 : RTCPeerConnection) (d : RTCSessionDescription)
    (h1 : (handleRemoteAnswer a1 svc).1.peerConnection = some pc1)
    (h2 : pc1.remoteDescription = some d) :
    (handleRemoteAnswer a2 (handleRemoteAnswer a1 svc).1).1 = (handleRemoteAnswer a1 svc).1 := by
  have hwf1 := handleRemoteAnswer_wf svc a1 hwf
  have hs : pc1.signalingState = .stable := by
    unfold wfRemote at hwf1
    rw [h1] at hwf1
    simp only [h2] at hwf1
    simpa using hwf1
  exact handleRemoteAnswer_stable _ a2 pc1 h1 hs

/-- C4 witness: apply the theorem on a concrete negotiation awaiting its
answer: the first well-formed answer is applied, and a second invocation with
the same payload leaves the state unchanged. -/
theorem C4_witness :
    (handleRemoteAnswer answerMsgVal (handleRemoteAnswer answerMsgVal hloService).1).1
      = (handleRemoteAnswer answerMsgVal hloService).1 :=
  C4_remote_answer_applied_once hloService answerMsgVal answerMsgVal rfl
    (RTCPeerConnection.mk .stable (some (RTCSessionDescription.mk ("osdp") ("offer")))
      (some (RTCSessionDescription.mk ("asdp") ("answer"))))
    (RTCSessionDescription.mk ("asdp") ("answer")) rfl rfl

/-- C5: at the failing input — a connected service with registered callbacks
but no session — `setLanguages` only logs a console error: it surfaces no
error to the caller (no thrown exception, no error-callback invocation, the
call returns normally) and sends no message, where the claim and the spec
require a NoActiveSessionError surfaced to the caller; on an active session
it does send exactly one `set_languages` message with the given pair. -/
theorem C5_silent_drop :
    setLanguages ("vi") ("en") connectedNoSession
      = (connectedNoSession,
         [Effect.logError ("Cannot set languages: No active session or connection")])
    ∧ setLanguages ("vi") ("en") activeService
      = (activeService,
         [Effect.send (ClientMsg.set_languages (.str ("s1")) ("vi") ("en"))]) :=
  ⟨rfl, rfl⟩

/-- C6: whenever the socket is not connected, `createSession` rejects with
NotConnectedError and performs no effect at all — in particular it sends no
message on the channel. -/
theorem C6_not_connected (sid : Option JsValue) (pc : Option RTCPeerConnection)
    (ls rs : Option MediaStream) (cbs : Callbacks) (ps : List PState)
    (ts : List TimerState) :
    createSession (Runtime.mk (WebRTCService.mk false sid pc ls rs cbs) ps ts)
      = (Runtime.mk (WebRTCService.mk false sid pc ls rs cbs)
          (ps ++ [PState.rejected NotConnectedError]) ts, []) := rfl

/-- C7 counterexample: the frame `"oops"` is not parseable as a structured
message, and on it the `onmessage` handler does not drop the frame with a
logged diagnostic — it throws an uncaught exception out of the dispatcher
(the source calls `JSON.parse` with no surrounding try/catch), contrary to
the claim that the handler is total on arbitrary frame text. -/
theorem C7_counterexample :
    onmessage ("oops") rtConn = .error (JsError.parseErr ("Unexpected token in JSON")) := rfl

/-- C7 amended: for every frame and every service state, a frame that is not
valid JSON makes the `onmessage` handler throw a parse exception, a frame
parsing to JSON `null` makes the dispatcher throw a TypeError while
destructuring, and every other parseable frame is handled without throwing
(with unknown actions logged and ignored).  Malformed frames are thus not
dropped with a diagnostic: they escape the dispatcher as exceptions. -/
theorem C7_amended (s : String) (rt : Runtime) :
    (jsonParse s = none → onmessage s rt = .error (.parseErr ("Unexpected token in JSON")))
    ∧ (jsonParse s = some .null →
        onmessage s rt = .error (.typeError ("Cannot destructure property of null")))
    ∧ (∀ v : JsValue, jsonParse s = some v → v ≠ .null →
        exceptOk (onmessage s rt) = true) := by
  refine ⟨fun h => ?_, fun h => ?_, fun v h hv => ?_⟩
  · simp [onmessage, h]
  · simp [onmessage, h, handleWebSocketMessage]
  · simp only [onmessage, h]
    exact handleWS_total v hv rt

/-- C7 witness: the three cases of the amended claim at concrete frames: an
unparseable frame throws the parse error, the frame `"null"` throws the
destructuring TypeError, and the parseable frame `"7"` is handled normally. -/
theorem C7_witness :
    onmessage ("nonsense") rtConn = .error (.parseErr ("Unexpected token in JSON"))
    ∧ onmessage ("null") rtConn = .error (.typeError ("Cannot destructure property of null"))
    ∧ exceptOk (onmessage ("7") rtConn) = true :=
  ⟨(C7_amended ("nonsense") rtConn).1 rfl,
   (C7_amended ("null") rtConn).2.1 rfl,
   (C7_amended ("7") rtConn).2.2 (.num 7) rfl (fun h => JsValue.noConfusion h)⟩

/-- C8 counterexample: on a mid-call state whose negotiation is already
complete (signaling state `stable`), a failing application of a remote
description surfaces an error on the error callback but triggers no teardown
at all: the service state is returned unchanged — the session id and local
stream are kept, no track is stopped, no `close_session` is sent, and no
call-ended notification fires — contrary to the claim that the session is
forced into `Ending`. -/
theorem C8_counterexample :
    handleRemoteAnswer answerMsgVal activeService
      = (activeService,
         [Effect.logError ("Error handling remote answer:"),
          Effect.emitError (some (.str ("Lỗi khi thiết lập kết nối")))]) := rfl

/-- C8 amended: for every failure while applying the remote description (the
description constructor throws, or `setRemoteDescription` is invoked outside
`haveLocalOffer` or with a non-answer type), the handler catches the error,
logs it and surfaces it via the error callback when one is registered — but
no teardown is triggered: the service state is returned completely
unchanged, and nothing is forced into an `Ending`/`Idle` collapse. -/
theorem C8_amended (svc : WebRTCService) (a : Option JsValue) (pc : RTCPeerConnection)
    (hpc : svc.peerConnection = some pc) (hf : applyFails pc a = true) :
    handleRemoteAnswer a svc
      = (svc, Effect.logError ("Error handling remote answer:") :: errCB svc) := by
  unfold handleRemoteAnswer
  rw [hpc]
  unfold applyFails at hf
  cases hd : mkRTCSessionDescription a with
  | error e => rfl
  | ok d =>
    rw [hd] at hf
    cases hss : pc.signalingState with
    | stable => simp [hss]
    | haveLocalOffer =>
      rw [hss] at hf
      simp only [Bool.not_eq_true'] at hf
      simp at hf
      simp [hss, hf]

/-- C8 witness: the amended claim at a concrete failing input — a payload
with no description dictionary fails the constructor, is logged and surfaced
on the error callback, and leaves the awaiting-answer state untouched. -/
theorem C8_witness :
    handleRemoteAnswer none hloService
      = (hloService, Effect.logError ("Error handling remote answer:") :: errCB hloService) :=
  C8_amended hloService none
    (RTCPeerConnection.mk .haveLocalOffer
      (some (RTCSessionDescription.mk ("osdp") ("offer"))) none) rfl rfl

/-- C9: for every teardown, the `close_session` request is the only message
sent, and it is sent exactly when a (truthy) session id exists and the socket
is connected — in particular nothing is sent at the transport level when the
channel is not open — while the local state is cleared in every case: after
`endCall` the session id and the remote media handle are always `none`. -/
theorem C9_close_session (svc : WebRTCService) :
    (endCall svc).1.sessionId = none
    ∧ (endCall svc).1.remoteStream = none
    ∧ sentMessages (endCall svc).2
      = (match svc.sessionId, svc.isConnected with
         | some v, true => if truthy v then [ClientMsg.close_session v] else []
         | _, _ => []) := by
  obtain ⟨conn, sid, pc, ls, rs, ⟨c1, c2, c3, c4, c5, c6, c7⟩⟩ := svc
  refine ⟨rfl, rfl, ?_⟩
  cases pc <;> cases ls <;> cases sid <;> cases conn <;> cases c7 <;>
    simp only [endCall, sentMessages_append, sentMessages_mapStop, sentMessages_sendIf,
      sentMessages_nil, sentMessages_closePC, sentMessages_emitCE,
      List.append_nil, List.nil_append]

/-- C10: callback registration is frame-preserving — registering under each
of the seven known event names replaces exactly that slot of the callback
table (record update touching no other slot), and registering under any
unknown event name leaves the service, including the whole callback table,
unchanged and only logs the rejection. -/
theorem C10_on_frame (cb : Nat) (svc : WebRTCService) :
    on' ("onConnectionStateChange") cb svc
      = ({ svc with callbacks := { svc.callbacks with onConnectionStateChange := some cb } }, [])
    ∧ on' ("onTranscript") cb svc
      = ({ svc with callbacks := { svc.callbacks with onTranscript := some cb } }, [])
    ∧ on' ("onTranslation") cb svc
      = ({ svc with callbacks := { svc.callbacks with onTranslation := some cb } }, [])
    ∧ on' ("onError") cb svc
      = ({ svc with callbacks := { svc.callbacks with onError := some cb } }, [])
    ∧ on' ("onSessionCreated") cb svc
      = ({ svc with callbacks := { svc.callbacks with onSessionCreated := .ofUser (some cb) } }, [])
    ∧ on' ("onCallEstablished") cb svc
      = ({ svc with callbacks := { svc.callbacks with onCallEstablished := some cb } }, [])
    ∧ on' ("onCallEnded") cb svc
      = ({ svc with callbacks := { svc.callbacks with onCallEnded := some cb } }, [])
    ∧ (∀ name : String, callbackNames.contains name = false →
        on' name cb svc = (svc, [.logError ("Unknown event: " ++ name)])) := by
  refine ⟨rfl, rfl, rfl, rfl, rfl, rfl, rfl, fun name hn => ?_⟩
  have hmem : name ∉ callbackNames := by simpa using hn
  simp [on', hmem]

/-- C10 witness: apply the frame theorem at the unknown event name
`"bogus"`: the service is unchanged and only the rejection is logged. -/
theorem C10_witness :
    on' ("bogus") 0 initService = (initService, [.logError ("Unknown event: " ++ "bogus")]) :=
  (C10_on_frame 0 initService).2.2.2.2.2.2.2 ("bogus") (by decide)
